import Mathlib

/-!
Verification of the PerpTradeSim strategy engine and bot coordinator.

The Python source (strategy.py, trading_bot.py) is shallowly embedded:
prices, balances and fees are rationals, timestamps are naturals, and the
mutating methods become state-passing functions returning the method's
result paired with the updated state.
-/

namespace PerpTradeSim

/-- Side of a position: the Python code uses the strings 'long' / 'short'. -/
inductive Side where
  | long
  | short
deriving DecidableEq, Repr

/-- Close reason: the strings 'trend_reversal', 'liquidation', 'manual'. -/
inductive CloseReason where
  | trend_reversal
  | liquidation
  | manual
deriving DecidableEq, Repr

/-- Embedding of strategy.py dataclass Position. -/
structure Position where
  side : Side
  entry_price : ℚ
  size : ℚ
  leverage : ℚ
  entry_time : ℕ
  liquidation_price : ℚ
deriving DecidableEq, Repr

/-- Position.calculate_pnl: unrealized PnL at current_price. -/
def Position.calculate_pnl (p : Position) (current_price : ℚ) : ℚ :=
  match p.side with
  | Side.long => (current_price - p.entry_price) * p.size * p.leverage
  | Side.short => (p.entry_price - current_price) * p.size * p.leverage

/-- Position.is_liquidated: long when price drops to or below the liquidation
price, short when price rises to or above it. -/
def Position.is_liquidated (p : Position) (current_price : ℚ) : Bool :=
  match p.side with
  | Side.long => decide (current_price ≤ p.liquidation_price)
  | Side.short => decide (current_price ≥ p.liquidation_price)

/-- Embedding of strategy.py dataclass Trade (a completed trade record). -/
structure Trade where
  side : Side
  entry_price : ℚ
  exit_price : ℚ
  size : ℚ
  leverage : ℚ
  entry_time : ℕ
  exit_time : ℕ
  pnl : ℚ
  reason : CloseReason
deriving DecidableEq, Repr

/-- State of class TrendFollowingStrategy: configuration fields plus the
mutable fields price_history, current_position, completed_trades, balance,
total_fees_paid. -/
structure TrendFollowingStrategy where
  lookback_periods : ℕ
  min_trend_strength : ℚ
  leverage : ℚ
  position_size : ℚ
  trading_fee : ℚ
  liquidation_threshold : ℚ
  price_history : List (ℕ × ℚ)
  current_position : Option Position
  completed_trades : List Trade
  balance : ℚ
  total_fees_paid : ℚ
deriving DecidableEq, Repr

namespace TrendFollowingStrategy

/-- The constructor __init__ with explicit configuration arguments; the
mutable state starts empty with balance 1000 USDC. -/
def init (lookback_periods : ℕ) (min_trend_strength leverage position_size
    trading_fee liquidation_threshold : ℚ) : TrendFollowingStrategy :=
  { lookback_periods := lookback_periods
    min_trend_strength := min_trend_strength
    leverage := leverage
    position_size := position_size
    trading_fee := trading_fee
    liquidation_threshold := liquidation_threshold
    price_history := []
    current_position := none
    completed_trades := []
    balance := 1000
    total_fees_paid := 0 }

/-- The constructor with its Python default arguments: lookback 3, minimum
trend strength 0.05%, leverage 5, position size 100 USDC, fee rate 0.1%,
liquidation threshold 80%. -/
def default : TrendFollowingStrategy :=
  init 3 (1/2000) 5 100 (1/1000) (4/5)

/-- add_price: append the sample; when the window exceeds 1000 entries keep
only the most recent 500 (the Python slice price_history[-500:]). -/
def add_price (s : TrendFollowingStrategy) (timestamp : ℕ) (price : ℚ) :
    TrendFollowingStrategy :=
  let h := s.price_history ++ [(timestamp, price)]
  { s with price_history := if 1000 < h.length then h.drop (h.length - 500) else h }

/-- The most recent lookback_periods + 1 prices in chronological order
(the Python slice price_history[-(lookback_periods + 1):], values only). -/
def recent_prices (s : TrendFollowingStrategy) : List ℚ :=
  ((s.price_history.drop (s.price_history.length - (s.lookback_periods + 1))).map Prod.snd)

/-- Consecutive pairs (price[i-1], price[i]) of the recent prices, the pairs
ranged over by the two all(...) comprehensions in detect_trend. -/
def trend_pairs (s : TrendFollowingStrategy) : List (ℚ × ℚ) :=
  (recent_prices s).zip (recent_prices s).tail

/-- The higher_highs condition of detect_trend: every consecutive pair
strictly increases by more than min_trend_strength of the prior value. -/
def higher_highs (s : TrendFollowingStrategy) : Bool :=
  (trend_pairs s).all fun pq => decide (pq.1 * (1 + s.min_trend_strength) < pq.2)

/-- The lower_lows condition of detect_trend: every consecutive pair strictly
decreases by more than min_trend_strength of the prior value. -/
def lower_lows (s : TrendFollowingStrategy) : Bool :=
  (trend_pairs s).all fun pq => decide (pq.2 < pq.1 * (1 - s.min_trend_strength))

/-- Trend tag returned by detect_trend ('bullish' / 'bearish' / None). -/
inductive Trend where
  | bullish
  | bearish
deriving DecidableEq, Repr

/-- detect_trend: None when fewer than lookback_periods + 1 samples; else
bullish when higher_highs, otherwise bearish when lower_lows, otherwise
None. The bullish branch is checked first, as in the source. -/
def detect_trend (s : TrendFollowingStrategy) : Option Trend :=
  if s.price_history.length < s.lookback_periods + 1 then none
  else if higher_highs s then some Trend.bullish
  else if lower_lows s then some Trend.bearish
  else none

/-- calculate_liquidation_price: distance entry_price / leverage ×
liquidation_threshold, subtracted for long, added for short. -/
def calculate_liquidation_price (s : TrendFollowingStrategy) (entry_price : ℚ)
    (side : Side) : ℚ :=
  let liquidation_distance := entry_price / s.leverage * s.liquidation_threshold
  match side with
  | Side.long => entry_price - liquidation_distance
  | Side.short => entry_price + liquidation_distance

/-- calculate_trading_fee: notional value times the fee rate. -/
def calculate_trading_fee (s : TrendFollowingStrategy) (notional_value : ℚ) : ℚ :=
  notional_value * s.trading_fee

/-- open_position: fails without state change when a position is already open
or balance is below the entry fee; on success deducts the fee, accumulates
it, and installs the new Position. Returns the Python bool result paired
with the updated state. -/
def open_position (s : TrendFollowingStrategy) (side : Side) (price : ℚ)
    (timestamp : ℕ) : Bool × TrendFollowingStrategy :=
  match s.current_position with
  | some _ => (false, s)
  | none =>
    let notional_value := s.position_size * s.leverage
    let fee := s.calculate_trading_fee notional_value
    if s.balance < fee then (false, s)
    else
      let liquidation_price := s.calculate_liquidation_price price side
      (true,
        { s with
          balance := s.balance - fee
          total_fees_paid := s.total_fees_paid + fee
          current_position := some
            { side := side
              entry_price := price
              size := s.position_size
              leverage := s.leverage
              entry_time := timestamp
              liquidation_price := liquidation_price } })

/-- close_position: fails (None) when no position is open; otherwise deducts
the exit fee (position size × the engine's CURRENT leverage × fee rate),
credits net PnL = gross PnL − exit fee, appends the Trade and clears the
position. -/
def close_position (s : TrendFollowingStrategy) (price : ℚ) (timestamp : ℕ)
    (reason : CloseReason) : Option Trade × TrendFollowingStrategy :=
  match s.current_position with
  | none => (none, s)
  | some pos =>
    let pnl := pos.calculate_pnl price
    let notional_value := pos.size * s.leverage
    let fee := s.calculate_trading_fee notional_value
    let net_pnl := pnl - fee
    let trade : Trade :=
      { side := pos.side
        entry_price := pos.entry_price
        exit_price := price
        size := pos.size
        leverage := pos.leverage
        entry_time := pos.entry_time
        exit_time := timestamp
        pnl := net_pnl
        reason := reason }
    (some trade,
      { s with
        balance := s.balance - fee + net_pnl
        total_fees_paid := s.total_fees_paid + fee
        completed_trades := s.completed_trades ++ [trade]
        current_position := none })

/-- check_liquidation: when a position is open and its liquidation condition
holds at the fed price, close it with reason 'liquidation' and return the
Trade; otherwise None with no state change. -/
def check_liquidation (s : TrendFollowingStrategy) (price : ℚ) (timestamp : ℕ) :
    Option Trade × TrendFollowingStrategy :=
  match s.current_position with
  | none => (none, s)
  | some pos =>
    if pos.is_liquidated price then s.close_position price timestamp CloseReason.liquidation
    else (none, s)

/-- Action tag returned by process_price_update. -/
inductive Action where
  | opened_long
  | opened_short
  | closed_position
  | liquidated
deriving DecidableEq, Repr

/-- process_price_update: add the price, check liquidation first (returning
'liquidated' immediately when it fires), then detect the trend and either
look for an entry (no position) or a trend-reversal exit (position open). -/
def process_price_update (s : TrendFollowingStrategy) (timestamp : ℕ)
    (price : ℚ) : Option Action × TrendFollowingStrategy :=
  let s1 := s.add_price timestamp price
  let liq := s1.check_liquidation price timestamp
  if liq.1.isSome then (some Action.liquidated, liq.2)
  else
    let s2 := liq.2
    let trend := s2.detect_trend
    match s2.current_position with
    | none =>
      match trend with
      | some Trend.bullish =>
        let r := s2.open_position Side.long price timestamp
        if r.1 then (some Action.opened_long, r.2) else (none, r.2)
      | some Trend.bearish =>
        let r := s2.open_position Side.short price timestamp
        if r.1 then (some Action.opened_short, r.2) else (none, r.2)
      | none => (none, s2)
    | some pos =>
      if (pos.side = Side.long ∧ trend = some Trend.bearish) ∨
         (pos.side = Side.short ∧ trend = some Trend.bullish) then
        (some Action.closed_position, (s2.close_position price timestamp CloseReason.trend_reversal).2)
      else (none, s2)

/-- get_current_pnl: unrealized PnL of the open position, 0 when none. -/
def get_current_pnl (s : TrendFollowingStrategy) (current_price : ℚ) : ℚ :=
  match s.current_position with
  | none => 0
  | some pos => pos.calculate_pnl current_price

/-- get_total_realized_pnl: sum of pnl over the completed-trade ledger. -/
def get_total_realized_pnl (s : TrendFollowingStrategy) : ℚ :=
  (s.completed_trades.map Trade.pnl).sum

/-- get_win_rate: percentage of completed trades with positive pnl, 0 when
the ledger is empty. -/
def get_win_rate (s : TrendFollowingStrategy) : ℚ :=
  if s.completed_trades.isEmpty then 0
  else ((s.completed_trades.filter fun t => decide (0 < t.pnl)).length : ℚ) /
    (s.completed_trades.length : ℚ) * 100

/-- Value of the profit_factor statistic: either an ordinary number or the
unbounded sentinel (the Python float('inf')). -/
inductive ProfitFactor where
  | val (q : ℚ)
  | unbounded
deriving DecidableEq, Repr

/-- Arithmetic mean of a list of rationals (np.mean on a nonempty list). -/
def list_mean (l : List ℚ) : ℚ := l.sum / (l.length : ℚ)

/-- The dict returned by get_stats, as a record. -/
structure Stats where
  total_trades : ℕ
  realized_pnl : ℚ
  win_rate : ℚ
  avg_trade : ℚ
  avg_win : ℚ
  avg_loss : ℚ
  profit_factor : ProfitFactor
  total_fees : ℚ
  current_balance : ℚ
deriving DecidableEq, Repr

/-- The positive-pnl trades of the ledger (winning_trades in get_stats). -/
def winning_trades (s : TrendFollowingStrategy) : List Trade :=
  s.completed_trades.filter fun t => decide (0 < t.pnl)

/-- The negative-pnl trades of the ledger (losing_trades in get_stats). -/
def losing_trades (s : TrendFollowingStrategy) : List Trade :=
  s.completed_trades.filter fun t => decide (t.pnl < 0)

/-- get_stats: statistics recomputed from the ledger; profit_factor is
|avg_win / avg_loss| when avg_loss is nonzero, float('inf') when it is zero
with a nonempty ledger, and the plain number 0 when the ledger is empty. -/
def get_stats (s : TrendFollowingStrategy) : Stats :=
  let total_trades := s.completed_trades.length
  let realized_pnl := s.get_total_realized_pnl
  let win_rate := s.get_win_rate
  if 0 < total_trades then
    let avg_trade := realized_pnl / (total_trades : ℚ)
    let avg_win := if (winning_trades s).isEmpty then 0
      else list_mean ((winning_trades s).map Trade.pnl)
    let avg_loss := if (losing_trades s).isEmpty then 0
      else list_mean ((losing_trades s).map Trade.pnl)
    let profit_factor := if avg_loss ≠ 0 then ProfitFactor.val |avg_win / avg_loss|
      else ProfitFactor.unbounded
    { total_trades := total_trades
      realized_pnl := realized_pnl
      win_rate := win_rate
      avg_trade := avg_trade
      avg_win := avg_win
      avg_loss := avg_loss
      profit_factor := profit_factor
      total_fees := s.total_fees_paid
      current_balance := s.balance }
  else
    { total_trades := total_trades
      realized_pnl := realized_pnl
      win_rate := win_rate
      avg_trade := 0
      avg_win := 0
      avg_loss := 0
      profit_factor := ProfitFactor.val 0
      total_fees := s.total_fees_paid
      current_balance := s.balance }

end TrendFollowingStrategy

open TrendFollowingStrategy in
/-- Action tag stored in the coordinator's activity log: either an engine
action forwarded by _fetch_and_process_price, or 'manual_close'. -/
inductive LogAction where
  | engine_action (a : Action)
  | manual_close
deriving DecidableEq, Repr

/-- One activity-log entry written by _log_trading_action: timestamp, action,
price, and a snapshot (side, size, leverage, unrealized pnl) when a position
is open at logging time. -/
structure LogEntry where
  timestamp : ℕ
  action : LogAction
  price : ℚ
  position_snapshot : Option (Side × ℚ × ℚ × ℚ)
deriving DecidableEq, Repr

/-- State of trading_bot.py class TradingBot restricted to the fields the
engine-facing operations touch: the owned strategy, the last known price
(None before the first successful fetch) and the activity log trade_log. -/
structure TradingBot where
  strategy : TrendFollowingStrategy
  last_price : Option ℚ
  trade_log : List LogEntry
deriving DecidableEq, Repr

namespace TradingBot

open TrendFollowingStrategy

/-- _log_trading_action: append an entry (with a position snapshot when a
position is open), trimming the log to its most recent 50 entries when it
exceeds 100. -/
def log_trading_action (b : TradingBot) (action : LogAction) (price : ℚ)
    (timestamp : ℕ) : TradingBot :=
  let entry : LogEntry :=
    { timestamp := timestamp
      action := action
      price := price
      position_snapshot :=
        match b.strategy.current_position with
        | none => none
        | some pos => some (pos.side, pos.size, pos.leverage, b.strategy.get_current_pnl price) }
  let log := b.trade_log ++ [entry]
  { b with trade_log := if 100 < log.length then log.drop (log.length - 50) else log }

/-- manual_close_position: fails (None) when no position is open or when the
last price is missing — the Python guard `if not self.last_price` also treats
a price of exactly 0 as missing. On success it closes with reason 'manual'
and logs a 'manual_close' activity entry. -/
def manual_close_position (b : TradingBot) (now : ℕ) : Option Trade × TradingBot :=
  match b.strategy.current_position with
  | none => (none, b)
  | some _ =>
    match b.last_price with
    | none => (none, b)
    | some price =>
      if price = 0 then (none, b)
      else
        let r := b.strategy.close_position price now CloseReason.manual
        match r.1 with
        | some t =>
          (some t, ({ b with strategy := r.2 }).log_trading_action LogAction.manual_close price now)
        | none => (none, { b with strategy := r.2 })

/-- update_strategy_params: overwrite in place whichever of the four
configuration fields is supplied. -/
def update_strategy_params (b : TradingBot) (leverage : Option ℚ)
    (position_size : Option ℚ) (lookback_periods : Option ℕ)
    (min_trend_strength : Option ℚ) : TradingBot :=
  let s0 := b.strategy
  let s1 := match leverage with
    | none => s0
    | some v => { s0 with leverage := v }
  let s2 := match position_size with
    | none => s1
    | some v => { s1 with position_size := v }
  let s3 := match lookback_periods with
    | none => s2
    | some v => { s2 with lookback_periods := v }
  let s4 := match min_trend_strength with
    | none => s3
    | some v => { s3 with min_trend_strength := v }
  { b with strategy := s4 }

/-- reset_strategy: manual-close any open position first, then clear the
ledger, restore balance to 1000, zero the fees and clear the activity log. -/
def reset_strategy (b : TradingBot) (now : ℕ) : TradingBot :=
  let b1 :=
    match b.strategy.current_position with
    | some _ => (b.manual_close_position now).2
    | none => b
  { b1 with
    strategy :=
      { b1.strategy with completed_trades := [], balance := 1000, total_fees_paid := 0 }
    trade_log := [] }

end TradingBot

namespace TrendFollowingStrategy

/-- Engine states reachable from a freshly constructed engine by any
sequence of the public mutators. -/
inductive Reachable : TrendFollowingStrategy → Prop where
  | init (lookback_periods : ℕ)
      (min_trend_strength leverage position_size trading_fee liquidation_threshold : ℚ) :
      Reachable (init lookback_periods min_trend_strength leverage position_size
        trading_fee liquidation_threshold)
  | add_price {s : TrendFollowingStrategy} (timestamp : ℕ) (price : ℚ) :
      Reachable s → Reachable (s.add_price timestamp price)
  | open_position {s : TrendFollowingStrategy} (side : Side) (price : ℚ) (timestamp : ℕ) :
      Reachable s → Reachable ((s.open_position side price timestamp).2)
  | close_position {s : TrendFollowingStrategy} (price : ℚ) (timestamp : ℕ)
      (reason : CloseReason) :
      Reachable s → Reachable ((s.close_position price timestamp reason).2)
  | check_liquidation {s : TrendFollowingStrategy} (price : ℚ) (timestamp : ℕ) :
      Reachable s → Reachable ((s.check_liquidation price timestamp).2)
  | process_price_update {s : TrendFollowingStrategy} (timestamp : ℕ) (price : ℚ) :
      Reachable s → Reachable ((s.process_price_update timestamp price).2)

/-- The accounting identity of the spec: balance equals the 1000 USDC
initial balance minus all fees accumulated in total_fees_paid plus the sum
of net pnl over the completed-trade ledger. -/
def balance_equation (s : TrendFollowingStrategy) : Prop :=
  s.balance = 1000 - s.total_fees_paid + (s.completed_trades.map Trade.pnl).sum

end TrendFollowingStrategy

open TrendFollowingStrategy

/-- Engine state whose window holds the strictly rising spec-example prices
100, 101.2, 102.5, 103.9 with the default configuration. -/
def bull_state : TrendFollowingStrategy :=
  { TrendFollowingStrategy.default with
    price_history := [(0, 100), (1, 1012/10), (2, 1025/10), (3, 1039/10)] }

/-- Engine state whose window holds the strictly falling spec-example prices
100, 98.8, 97.5, 96.0 with the default configuration. -/
def bear_state : TrendFollowingStrategy :=
  { TrendFollowingStrategy.default with
    price_history := [(0, 100), (1, 988/10), (2, 975/10), (3, 96)] }

/-- Engine state whose window holds the mixed spec-example prices
100, 101, 100.5, 101.5 with the default configuration. -/
def flat_state : TrendFollowingStrategy :=
  { TrendFollowingStrategy.default with
    price_history := [(0, 100), (1, 101), (2, 1005/10), (3, 1015/10)] }

/-- Engine state with lookback_periods = 0 and a single price sample. -/
def single_sample_state : TrendFollowingStrategy :=
  { TrendFollowingStrategy.init 0 (1/2000) 5 100 (1/1000) (4/5) with
    price_history := [(0, 100)] }

/-- A long position entered at 100 with size 100, leverage 5 and the derived
liquidation price 84 (the worked example of the spec). -/
def pos_long_84 : Position :=
  { side := Side.long
    entry_price := 100
    size := 100
    leverage := 5
    entry_time := 0
    liquidation_price := 84 }

/-- Default-config engine holding the open long position pos_long_84. -/
def long84_state : TrendFollowingStrategy :=
  { TrendFollowingStrategy.default with current_position := some pos_long_84 }

/-- Engine holding pos_long_84 (opened at leverage 5) after the configured
leverage was changed to 7 while the position stayed open. -/
def mixed_leverage_state : TrendFollowingStrategy :=
  { long84_state with leverage := 7 }

/-- A completed sample trade with net pnl 5. -/
def sample_trade : Trade :=
  { side := Side.long
    entry_price := 100
    exit_price := 101
    size := 100
    leverage := 5
    entry_time := 0
    exit_time := 1
    pnl := 5
    reason := CloseReason.trend_reversal }

/-- Default-config engine whose ledger holds exactly sample_trade. -/
def one_trade_state : TrendFollowingStrategy :=
  { TrendFollowingStrategy.default with completed_trades := [sample_trade] }

/-- Coordinator holding an open position whose last known price is the
falsy value 0 (the Python guard treats it as missing). -/
def bot_price_zero : TradingBot :=
  { strategy := long84_state
    last_price := some 0
    trade_log := [] }

/-- Coordinator holding an open position with last known price 90. -/
def bot_price_90 : TradingBot :=
  { strategy := long84_state
    last_price := some 90
    trade_log := [] }

end PerpTradeSim

namespace PerpTradeSim

open TrendFollowingStrategy

/-! ## Helper lemmas -/

/-- A failed open attempt (position already open) is the identity. -/
theorem open_position_already_open {s : TrendFollowingStrategy} {pos : Position}
    (h : s.current_position = some pos) (side : Side) (price : ℚ) (timestamp : ℕ) :
    s.open_position side price timestamp = (false, s) := by
  unfold open_position
  rw [h]

/-- A failed open attempt (insufficient balance) is the identity. -/
theorem open_position_insufficient {s : TrendFollowingStrategy}
    (h : s.current_position = none)
    (hb : s.balance < s.position_size * s.leverage * s.trading_fee)
    (side : Side) (price : ℚ) (timestamp : ℕ) :
    s.open_position side price timestamp = (false, s) := by
  unfold open_position calculate_trading_fee
  rw [h]
  simp only [if_pos hb]

/-- A close attempt with no open position is the identity. -/
theorem close_position_no_position {s : TrendFollowingStrategy}
    (h : s.current_position = none) (price : ℚ) (timestamp : ℕ) (reason : CloseReason) :
    s.close_position price timestamp reason = (none, s) := by
  unfold close_position
  rw [h]

/-- Shape of a successful open: the fee moves from balance to
total_fees_paid and the new position records the configured size and
leverage with the derived liquidation price. -/
theorem open_position_success {s : TrendFollowingStrategy}
    (h : s.current_position = none)
    (hb : ¬ s.balance < s.position_size * s.leverage * s.trading_fee)
    (side : Side) (price : ℚ) (timestamp : ℕ) :
    s.open_position side price timestamp =
      (true,
        { s with
          balance := s.balance - s.position_size * s.leverage * s.trading_fee
          total_fees_paid := s.total_fees_paid + s.position_size * s.leverage * s.trading_fee
          current_position := some
            { side := side
              entry_price := price
              size := s.position_size
              leverage := s.leverage
              entry_time := timestamp
              liquidation_price := s.calculate_liquidation_price price side } }) := by
  unfold open_position calculate_trading_fee
  rw [h]
  simp only [if_neg hb]

/-- Shape of a successful close: the exit fee is computed from the engine's
current leverage, the trade records net pnl, and the position is cleared. -/
theorem close_position_success {s : TrendFollowingStrategy} {pos : Position}
    (h : s.current_position = some pos) (price : ℚ) (timestamp : ℕ) (reason : CloseReason) :
    s.close_position price timestamp reason =
      (some
        { side := pos.side
          entry_price := pos.entry_price
          exit_price := price
          size := pos.size
          leverage := pos.leverage
          entry_time := pos.entry_time
          exit_time := timestamp
          pnl := pos.calculate_pnl price - pos.size * s.leverage * s.trading_fee
          reason := reason },
        { s with
          balance := s.balance - pos.size * s.leverage * s.trading_fee +
            (pos.calculate_pnl price - pos.size * s.leverage * s.trading_fee)
          total_fees_paid := s.total_fees_paid + pos.size * s.leverage * s.trading_fee
          completed_trades := s.completed_trades ++
            [{ side := pos.side
               entry_price := pos.entry_price
               exit_price := price
               size := pos.size
               leverage := pos.leverage
               entry_time := pos.entry_time
               exit_time := timestamp
               pnl := pos.calculate_pnl price - pos.size * s.leverage * s.trading_fee
               reason := reason }]
          current_position := none }) := by
  unfold close_position calculate_trading_fee
  rw [h]

/-- add_price changes only the price window. -/
theorem add_price_effect (s : TrendFollowingStrategy) (timestamp : ℕ) (price : ℚ) :
    (s.add_price timestamp price).current_position = s.current_position ∧
    (s.add_price timestamp price).completed_trades = s.completed_trades ∧
    (s.add_price timestamp price).balance = s.balance ∧
    (s.add_price timestamp price).total_fees_paid = s.total_fees_paid :=
  ⟨rfl, rfl, rfl, rfl⟩

/-- open_position never touches the completed-trade ledger. -/
theorem open_position_trades (s : TrendFollowingStrategy) (side : Side) (price : ℚ)
    (timestamp : ℕ) :
    (s.open_position side price timestamp).2.completed_trades = s.completed_trades := by
  unfold open_position
  cases s.current_position with
  | some pos => rfl
  | none =>
    dsimp only
    split
    · rfl
    · rfl

/-- A reported-successful open leaves a position installed. -/
theorem open_position_installs {s : TrendFollowingStrategy} {side : Side} {price : ℚ}
    {timestamp : ℕ} (h : (s.open_position side price timestamp).1 = true) :
    (s.open_position side price timestamp).2.current_position.isSome = true := by
  cases hc : s.current_position with
  | some pos =>
    rw [open_position_already_open hc] at h
    cases h
  | none =>
    by_cases hb : s.balance < s.position_size * s.leverage * s.trading_fee
    · rw [open_position_insufficient hc hb] at h
      cases h
    · rw [open_position_success hc hb]
      rfl

/-- close_position appends at most one trade. -/
theorem close_position_trades_len (s : TrendFollowingStrategy) (price : ℚ)
    (timestamp : ℕ) (reason : CloseReason) :
    (s.close_position price timestamp reason).2.completed_trades.length ≤
      s.completed_trades.length + 1 := by
  cases hc : s.current_position with
  | none => rw [close_position_no_position hc]; exact Nat.le_succ _
  | some pos =>
    rw [close_position_success hc]
    simp

/-- check_liquidation appends at most one trade. -/
theorem check_liquidation_trades_len (s : TrendFollowingStrategy) (price : ℚ)
    (timestamp : ℕ) :
    (s.check_liquidation price timestamp).2.completed_trades.length ≤
      s.completed_trades.length + 1 := by
  unfold check_liquidation
  cases hc : s.current_position with
  | none => exact Nat.le_succ _
  | some pos =>
    dsimp only
    split
    · exact close_position_trades_len s price timestamp CloseReason.liquidation
    · exact Nat.le_succ _

/-- When the liquidation check does not fire it is the identity. -/
theorem check_liquidation_not_fired {s : TrendFollowingStrategy} {price : ℚ}
    {timestamp : ℕ} (h : ¬ ((s.check_liquidation price timestamp).1.isSome = true)) :
    s.check_liquidation price timestamp = (none, s) := by
  cases hc : s.current_position with
  | none =>
    unfold check_liquidation
    rw [hc]
  | some pos =>
    by_cases hl : pos.is_liquidated price = true
    · exfalso
      apply h
      have heq : s.check_liquidation price timestamp =
          s.close_position price timestamp CloseReason.liquidation := by
        unfold check_liquidation
        rw [hc]
        simp [hl]
      rw [heq, close_position_success hc]
      rfl
    · unfold check_liquidation
      rw [hc]
      simp [hl]

/-- The balance equation is preserved by add_price. -/
theorem balance_equation_add_price {s : TrendFollowingStrategy}
    (h : balance_equation s) (timestamp : ℕ) (price : ℚ) :
    balance_equation (s.add_price timestamp price) := h

/-- The balance equation is preserved by open_position. -/
theorem balance_equation_open {s : TrendFollowingStrategy} (h : balance_equation s)
    (side : Side) (price : ℚ) (timestamp : ℕ) :
    balance_equation ((s.open_position side price timestamp).2) := by
  cases hc : s.current_position with
  | some pos => rw [open_position_already_open hc]; exact h
  | none =>
    by_cases hb : s.balance < s.position_size * s.leverage * s.trading_fee
    · rw [open_position_insufficient hc hb]; exact h
    · rw [open_position_success hc hb]
      unfold balance_equation at h ⊢
      dsimp only
      linarith

/-- The balance equation is preserved by close_position. -/
theorem balance_equation_close {s : TrendFollowingStrategy} (h : balance_equation s)
    (price : ℚ) (timestamp : ℕ) (reason : CloseReason) :
    balance_equation ((s.close_position price timestamp reason).2) := by
  cases hc : s.current_position with
  | none => rw [close_position_no_position hc]; exact h
  | some pos =>
    rw [close_position_success hc]
    unfold balance_equation at h ⊢
    dsimp only
    rw [List.map_append, List.sum_append]
    dsimp only [List.map_cons, List.map_nil]
    rw [List.sum_cons, List.sum_nil]
    linarith

/-- The balance equation is preserved by check_liquidation. -/
theorem balance_equation_check {s : TrendFollowingStrategy} (h : balance_equation s)
    (price : ℚ) (timestamp : ℕ) :
    balance_equation ((s.check_liquidation price timestamp).2) := by
  unfold check_liquidation
  cases hc : s.current_position with
  | none => exact h
  | some pos =>
    dsimp only
    split
    · exact balance_equation_close h price timestamp CloseReason.liquidation
    · exact h

/-- The balance equation is preserved by a full tick. -/
theorem balance_equation_process {s : TrendFollowingStrategy} (h : balance_equation s)
    (timestamp : ℕ) (price : ℚ) :
    balance_equation ((s.process_price_update timestamp price).2) := by
  have h1 : balance_equation (s.add_price timestamp price) :=
    balance_equation_add_price h timestamp price
  have h2 : balance_equation
      (((s.add_price timestamp price).check_liquidation price timestamp).2) :=
    balance_equation_check h1 price timestamp
  unfold process_price_update
  dsimp only
  split
  · exact h2
  · split
    · split
      · split
        · exact balance_equation_open h2 Side.long price timestamp
        · exact balance_equation_open h2 Side.long price timestamp
      · split
        · exact balance_equation_open h2 Side.short price timestamp
        · exact balance_equation_open h2 Side.short price timestamp
      · exact h2
    · split
      · exact balance_equation_close h2 price timestamp CloseReason.trend_reversal
      · exact h2

/-! ## Claim theorems -/

/-- C5: every failing mutator leaves the whole engine state unchanged and
reports failure by its return value: open_position returns false when a
position is already open or when balance is below the entry fee, and
close_position returns none when no position is open; the returned state is
exactly the input state, so no mutator partially mutates state on failure. -/
theorem failing_mutators_preserve_state :
    ∀ (s : TrendFollowingStrategy) (side : Side) (price : ℚ) (timestamp : ℕ)
      (reason : CloseReason),
    (∀ pos : Position, s.current_position = some pos →
      s.open_position side price timestamp = (false, s)) ∧
    (s.current_position = none →
      s.balance < s.position_size * s.leverage * s.trading_fee →
      s.open_position side price timestamp = (false, s)) ∧
    (s.current_position = none →
      s.close_position price timestamp reason = (none, s)) := by
  intro s side price timestamp reason
  exact ⟨fun pos h => open_position_already_open h side price timestamp,
    fun h hb => open_position_insufficient h hb side price timestamp,
    fun h => close_position_no_position h price timestamp reason⟩

/-- Witness for C5: at concrete states, close with no position and open with
a position already open are both identity failures. -/
theorem failing_mutators_preserve_state_witness :
    TrendFollowingStrategy.default.close_position 100 0 CloseReason.manual =
      (none, TrendFollowingStrategy.default) ∧
    long84_state.open_position Side.long 100 0 = (false, long84_state) :=
  ⟨(failing_mutators_preserve_state TrendFollowingStrategy.default Side.long 100 0
      CloseReason.manual).2.2 rfl,
   (failing_mutators_preserve_state long84_state Side.long 100 0
      CloseReason.manual).1 pos_long_84 rfl⟩

/-- C3: a successful open deducts exactly the entry fee
position_size × leverage × trading_fee from balance, adds it to cumulative
fees, creates the Position with liquidation price
entry_price ∓ entry_price / leverage × liquidation_threshold, and balance
strictly decreases; long at 100 with leverage 5 and threshold 0.8 gives
liquidation price 84, short gives 116. -/
theorem open_position_success_spec :
    (∀ (s : TrendFollowingStrategy) (side : Side) (price : ℚ) (timestamp : ℕ),
      s.current_position = none →
      ¬ s.balance < s.position_size * s.leverage * s.trading_fee →
      0 < s.position_size * s.leverage * s.trading_fee →
      (s.open_position side price timestamp).1 = true ∧
      (s.open_position side price timestamp).2.balance =
        s.balance - s.position_size * s.leverage * s.trading_fee ∧
      (s.open_position side price timestamp).2.total_fees_paid =
        s.total_fees_paid + s.position_size * s.leverage * s.trading_fee ∧
      (s.open_position side price timestamp).2.current_position = some
        { side := side
          entry_price := price
          size := s.position_size
          leverage := s.leverage
          entry_time := timestamp
          liquidation_price := s.calculate_liquidation_price price side } ∧
      (s.open_position side price timestamp).2.balance < s.balance) ∧
    (∀ (s : TrendFollowingStrategy) (price : ℚ),
      s.calculate_liquidation_price price Side.long =
        price - price / s.leverage * s.liquidation_threshold ∧
      s.calculate_liquidation_price price Side.short =
        price + price / s.leverage * s.liquidation_threshold) ∧
    ((TrendFollowingStrategy.default.open_position Side.long 100 0).2.current_position.map
      Position.liquidation_price = some 84) ∧
    ((TrendFollowingStrategy.default.open_position Side.short 100 0).2.current_position.map
      Position.liquidation_price = some 116) := by
  refine ⟨?_, ?_, ?_, ?_⟩
  · intro s side price timestamp h hb hpos
    rw [open_position_success h hb]
    refine ⟨rfl, rfl, rfl, rfl, ?_⟩
    have : s.balance - s.position_size * s.leverage * s.trading_fee < s.balance :=
      sub_lt_self _ hpos
    exact this
  · intro s price
    exact ⟨rfl, rfl⟩
  · norm_num [TrendFollowingStrategy.default, TrendFollowingStrategy.init,
      TrendFollowingStrategy.open_position, TrendFollowingStrategy.calculate_trading_fee,
      TrendFollowingStrategy.calculate_liquidation_price]
  · norm_num [TrendFollowingStrategy.default, TrendFollowingStrategy.init,
      TrendFollowingStrategy.open_position, TrendFollowingStrategy.calculate_trading_fee,
      TrendFollowingStrategy.calculate_liquidation_price]

/-- Witness for C3: on the default engine, opening long at price 100
succeeds and strictly decreases the balance. -/
theorem open_position_success_spec_witness :
    (TrendFollowingStrategy.default.open_position Side.long 100 0).1 = true ∧
    (TrendFollowingStrategy.default.open_position Side.long 100 0).2.balance <
      TrendFollowingStrategy.default.balance := by
  have h := open_position_success_spec.1 TrendFollowingStrategy.default Side.long 100 0
    rfl
    (by norm_num [TrendFollowingStrategy.default, TrendFollowingStrategy.init])
    (by norm_num [TrendFollowingStrategy.default, TrendFollowingStrategy.init])
  exact ⟨h.1, h.2.2.2.2⟩

/-- C4: check_liquidation closes the open position with reason liquidation
exactly when the liquidation condition holds (long: price at or below the
liquidation price; short: at or above), and is the identity otherwise; a
long with liquidation price 84 closes at fed price 83.99 and not at 84.01. -/
theorem check_liquidation_spec :
    (∀ (s : TrendFollowingStrategy) (price : ℚ) (timestamp : ℕ),
      (s.current_position = none → s.check_liquidation price timestamp = (none, s)) ∧
      (∀ pos : Position, s.current_position = some pos →
        (pos.side = Side.long →
          (pos.is_liquidated price = true ↔ price ≤ pos.liquidation_price)) ∧
        (pos.side = Side.short →
          (pos.is_liquidated price = true ↔ pos.liquidation_price ≤ price)) ∧
        (pos.is_liquidated price = true →
          s.check_liquidation price timestamp =
            s.close_position price timestamp CloseReason.liquidation ∧
          ∃ t : Trade, (s.check_liquidation price timestamp).1 = some t ∧
            t.reason = CloseReason.liquidation) ∧
        (pos.is_liquidated price = false →
          s.check_liquidation price timestamp = (none, s)))) ∧
    ((long84_state.check_liquidation (8399/100) 1).1.map Trade.reason =
      some CloseReason.liquidation) ∧
    ((long84_state.check_liquidation (8399/100) 1).2.current_position = none) ∧
    (long84_state.check_liquidation (8401/100) 1 = (none, long84_state)) := by
  refine ⟨?_, ?_, ?_, ?_⟩
  · intro s price timestamp
    constructor
    · intro h
      unfold check_liquidation
      rw [h]
    · intro pos h
      refine ⟨?_, ?_, ?_, ?_⟩
      · intro hside
        unfold Position.is_liquidated
        rw [hside]
        simp
      · intro hside
        unfold Position.is_liquidated
        rw [hside]
        simp [ge_iff_le]
      · intro hliq
        have heq : s.check_liquidation price timestamp =
            s.close_position price timestamp CloseReason.liquidation := by
          unfold check_liquidation
          rw [h]
          simp [hliq]
        refine ⟨heq, ?_⟩
        rw [heq, close_position_success h]
        exact ⟨_, rfl, rfl⟩
      · intro hliq
        unfold check_liquidation
        rw [h]
        simp [hliq]
  · norm_num [long84_state, pos_long_84, TrendFollowingStrategy.default,
      TrendFollowingStrategy.init, check_liquidation, close_position,
      Position.is_liquidated, Position.calculate_pnl, calculate_trading_fee]
  · norm_num [long84_state, pos_long_84, TrendFollowingStrategy.default,
      TrendFollowingStrategy.init, check_liquidation, close_position,
      Position.is_liquidated, Position.calculate_pnl, calculate_trading_fee]
  · norm_num [long84_state, pos_long_84, TrendFollowingStrategy.default,
      TrendFollowingStrategy.init, check_liquidation, Position.is_liquidated]

/-- Witness for C4: at fed price 80 the concrete long position liquidates
and the produced trade carries reason liquidation. -/
theorem check_liquidation_spec_witness :
    long84_state.check_liquidation 80 1 =
      long84_state.close_position 80 1 CloseReason.liquidation ∧
    ∃ t : Trade, (long84_state.check_liquidation 80 1).1 = some t ∧
      t.reason = CloseReason.liquidation :=
  ((check_liquidation_spec.1 long84_state 80 1).2 pos_long_84 rfl).2.2.1
    (by norm_num [Position.is_liquidated, pos_long_84])

/-- C9: with lookback_periods = 0 and a non-empty window, detect_trend is
bullish for every price sequence: both pair conditions hold vacuously and
the bullish branch is checked first. -/
theorem detect_trend_lookback_zero :
    ∀ s : TrendFollowingStrategy, s.lookback_periods = 0 → s.price_history ≠ [] →
      s.detect_trend = some Trend.bullish := by
  intro s h0 hne
  have hlen : 0 < s.price_history.length := List.length_pos.mpr hne
  have htail : (recent_prices s).tail = [] := by
    have h1 : (recent_prices s).length ≤ 1 := by
      unfold recent_prices
      rw [List.length_map, List.length_drop, h0]
      omega
    have h2 : (recent_prices s).tail.length = 0 := by
      rw [List.length_tail]
      omega
    exact List.eq_nil_of_length_eq_zero h2
  have hpairs : trend_pairs s = [] := by
    unfold trend_pairs
    rw [htail, List.zip_nil_right]
  have hh : higher_highs s = true := by
    unfold higher_highs
    rw [hpairs]
    rfl
  have hcond : ¬ (s.price_history.length < s.lookback_periods + 1) := by
    rw [h0]
    omega
  unfold detect_trend
  rw [if_neg hcond]
  simp [hh]

/-- Witness for C9: the single-sample lookback-0 state is judged bullish. -/
theorem detect_trend_lookback_zero_witness :
    single_sample_state.detect_trend = some Trend.bullish :=
  detect_trend_lookback_zero single_sample_state rfl (by simp [single_sample_state])

/-- C1: in every engine state reachable by any sequence of the mutators from
a freshly constructed engine, balance equals the initial 1000 minus
total_fees_paid plus the sum of pnl over the completed-trade ledger; the
unrealized PnL of an open position appears nowhere in the equation. -/
theorem balance_invariant_reachable :
    ∀ s : TrendFollowingStrategy, Reachable s → balance_equation s := by
  intro s h
  induction h with
  | init lookback mts lev ps tf lt =>
    unfold balance_equation TrendFollowingStrategy.init
    norm_num
  | add_price ts p _ ih => exact balance_equation_add_price ih ts p
  | open_position side p ts _ ih => exact balance_equation_open ih side p ts
  | close_position p ts r _ ih => exact balance_equation_close ih p ts r
  | check_liquidation p ts _ ih => exact balance_equation_check ih p ts
  | process_price_update ts p _ ih => exact balance_equation_process ih ts p

/-- Witness for C1: the balance equation holds after a concrete tick on the
default engine. -/
theorem balance_invariant_reachable_witness :
    balance_equation ((TrendFollowingStrategy.default.process_price_update 0 100).2) :=
  balance_invariant_reachable _
    (Reachable.process_price_update 0 100
      (Reachable.init 3 (1/2000) 5 100 (1/1000) (4/5)))

/-- Every tick lands in one of five shapes: liquidation return, a long or
short entry attempt, a trend-reversal close, or no action. -/
theorem process_price_update_shape (s : TrendFollowingStrategy) (timestamp : ℕ)
    (price : ℚ) :
    (s.process_price_update timestamp price =
        (some Action.liquidated,
          ((s.add_price timestamp price).check_liquidation price timestamp).2) ∧
      ((s.add_price timestamp price).check_liquidation price timestamp).1.isSome = true) ∨
    (s.process_price_update timestamp price =
        (if ((s.add_price timestamp price).open_position Side.long price timestamp).1 = true
         then (some Action.opened_long,
            ((s.add_price timestamp price).open_position Side.long price timestamp).2)
         else (none,
            ((s.add_price timestamp price).open_position Side.long price timestamp).2))) ∨
    (s.process_price_update timestamp price =
        (if ((s.add_price timestamp price).open_position Side.short price timestamp).1 = true
         then (some Action.opened_short,
            ((s.add_price timestamp price).open_position Side.short price timestamp).2)
         else (none,
            ((s.add_price timestamp price).open_position Side.short price timestamp).2))) ∨
    (s.process_price_update timestamp price =
        (some Action.closed_position,
          ((s.add_price timestamp price).close_position price timestamp
            CloseReason.trend_reversal).2)) ∨
    (s.process_price_update timestamp price = (none, s.add_price timestamp price)) := by
  by_cases hq :
      ((s.add_price timestamp price).check_liquidation price timestamp).1.isSome = true
  · left
    refine ⟨?_, hq⟩
    unfold process_price_update
    dsimp only
    rw [if_pos hq]
  · have hck := check_liquidation_not_fired hq
    cases hc : (s.add_price timestamp price).current_position with
    | none =>
      cases ht : (s.add_price timestamp price).detect_trend with
      | none =>
        right; right; right; right
        unfold process_price_update
        dsimp only
        rw [if_neg hq, hck]
        dsimp only
        rw [hc]
        dsimp only
        rw [ht]
      | some t =>
        cases t with
        | bullish =>
          right; left
          unfold process_price_update
          dsimp only
          rw [if_neg hq, hck]
          dsimp only
          rw [hc]
          dsimp only
          rw [ht]
        | bearish =>
          right; right; left
          unfold process_price_update
          dsimp only
          rw [if_neg hq, hck]
          dsimp only
          rw [hc]
          dsimp only
          rw [ht]
    | some pos =>
      by_cases hrev :
          ((pos.side = Side.long ∧
              (s.add_price timestamp price).detect_trend = some Trend.bearish) ∨
           (pos.side = Side.short ∧
              (s.add_price timestamp price).detect_trend = some Trend.bullish))
      · right; right; right; left
        unfold process_price_update
        dsimp only
        rw [if_neg hq, hck]
        dsimp only
        rw [hc]
        dsimp only
        rw [if_pos hrev]
      · right; right; right; right
        unfold process_price_update
        dsimp only
        rw [if_neg hq, hck]
        dsimp only
        rw [hc]
        dsimp only
        rw [if_neg hrev]

/-- C6: each tick performs at most one action: when the liquidation check
fires, the tick returns liquidated with the post-liquidation state and runs
no further open/close logic; when the tick reports an open, the position is
still open at tick end and the ledger is untouched (a position opened in
step 4 is never closed by step-5 logic in the same tick); and at most one
trade is appended per tick. -/
theorem process_price_update_single_action :
    ∀ (s : TrendFollowingStrategy) (timestamp : ℕ) (price : ℚ),
    ((s.process_price_update timestamp price).1 = some Action.liquidated →
      (s.process_price_update timestamp price).2 =
        ((s.add_price timestamp price).check_liquidation price timestamp).2 ∧
      ((s.add_price timestamp price).check_liquidation price timestamp).1.isSome = true) ∧
    (((s.process_price_update timestamp price).1 = some Action.opened_long ∨
      (s.process_price_update timestamp price).1 = some Action.opened_short) →
      (s.process_price_update timestamp price).2.current_position.isSome = true ∧
      (s.process_price_update timestamp price).2.completed_trades = s.completed_trades) ∧
    ((s.process_price_update timestamp price).2.completed_trades.length ≤
      s.completed_trades.length + 1) := by
  intro s timestamp price
  rcases process_price_update_shape s timestamp price with ⟨hp, hq⟩ | hp | hp | hp | hp
  · refine ⟨fun _ => ⟨by rw [hp], hq⟩, ?_, ?_⟩
    · intro ha
      rw [hp] at ha
      simp at ha
    · rw [hp]
      exact check_liquidation_trades_len (s.add_price timestamp price) price timestamp
  · by_cases hr :
        ((s.add_price timestamp price).open_position Side.long price timestamp).1 = true
    · rw [if_pos hr] at hp
      refine ⟨?_, ?_, ?_⟩
      · intro ha
        rw [hp] at ha
        simp at ha
      · intro _
        rw [hp]
        exact ⟨open_position_installs hr, open_position_trades _ _ _ _⟩
      · rw [hp]
        dsimp only
        rw [open_position_trades]
        exact Nat.le_succ _
    · rw [if_neg hr] at hp
      refine ⟨?_, ?_, ?_⟩
      · intro ha
        rw [hp] at ha
        simp at ha
      · intro ha
        rw [hp] at ha
        simp at ha
      · rw [hp]
        dsimp only
        rw [open_position_trades]
        exact Nat.le_succ _
  · by_cases hr :
        ((s.add_price timestamp price).open_position Side.short price timestamp).1 = true
    · rw [if_pos hr] at hp
      refine ⟨?_, ?_, ?_⟩
      · intro ha
        rw [hp] at ha
        simp at ha
      · intro _
        rw [hp]
        exact ⟨open_position_installs hr, open_position_trades _ _ _ _⟩
      · rw [hp]
        dsimp only
        rw [open_position_trades]
        exact Nat.le_succ _
    · rw [if_neg hr] at hp
      refine ⟨?_, ?_, ?_⟩
      · intro ha
        rw [hp] at ha
        simp at ha
      · intro ha
        rw [hp] at ha
        simp at ha
      · rw [hp]
        dsimp only
        rw [open_position_trades]
        exact Nat.le_succ _
  · refine ⟨?_, ?_, ?_⟩
    · intro ha
      rw [hp] at ha
      simp at ha
    · intro ha
      rw [hp] at ha
      simp at ha
    · rw [hp]
      exact close_position_trades_len (s.add_price timestamp price) price timestamp
        CloseReason.trend_reversal
  · refine ⟨?_, ?_, ?_⟩
    · intro ha
      rw [hp] at ha
      simp at ha
    · intro ha
      rw [hp] at ha
      simp at ha
    · rw [hp]
      exact Nat.le_succ _

/-- Witness for C6: the concrete liquidation tick on long84_state at fed
price 80 returns liquidated with exactly the post-liquidation state. -/
theorem process_price_update_single_action_witness :
    (long84_state.process_price_update 1 80).2 =
      ((long84_state.add_price 1 80).check_liquidation 80 1).2 ∧
    ((long84_state.add_price 1 80).check_liquidation 80 1).1.isSome = true :=
  (process_price_update_single_action long84_state 1 80).1
    (by norm_num [process_price_update, add_price, check_liquidation, close_position,
      Position.is_liquidated, Position.calculate_pnl, calculate_trading_fee,
      long84_state, pos_long_84, TrendFollowingStrategy.default, TrendFollowingStrategy.init])

/-- Counterexample to C2 as stated: on a state with enough samples where the
lower-lows pair condition holds (vacuously, with lookback 0), detect_trend
still returns bullish, not bearish, because the bullish branch is checked
first and also holds vacuously. -/
theorem detect_trend_bearish_iff_counterexample :
    ¬ (single_sample_state.price_history.length <
        single_sample_state.lookback_periods + 1) ∧
    lower_lows single_sample_state = true ∧
    single_sample_state.detect_trend = some Trend.bullish ∧
    single_sample_state.detect_trend ≠ some Trend.bearish := by
  refine ⟨by decide, rfl, rfl, by decide⟩

/-- C2 (amended): detect_trend returns none when the window holds fewer than
lookback_periods + 1 samples; otherwise it is bullish iff every consecutive
pair of the most recent lookback_periods + 1 prices rises by more than
min_trend_strength, bearish iff every pair falls by more than that fraction
AND not every pair rises (bullish takes precedence when both conditions hold,
e.g. vacuously when there are no pairs), and none otherwise; the three spec
example windows yield bullish, bearish and none respectively. -/
theorem detect_trend_spec :
    (∀ s : TrendFollowingStrategy,
      (s.price_history.length < s.lookback_periods + 1 → s.detect_trend = none) ∧
      (¬ s.price_history.length < s.lookback_periods + 1 →
        ((s.detect_trend = some Trend.bullish ↔ higher_highs s = true) ∧
         (s.detect_trend = some Trend.bearish ↔
           (lower_lows s = true ∧ higher_highs s = false)) ∧
         (s.detect_trend = none ↔
           (higher_highs s = false ∧ lower_lows s = false))))) ∧
    (∀ s : TrendFollowingStrategy,
      (higher_highs s = true ↔
        ∀ pq ∈ trend_pairs s, pq.1 * (1 + s.min_trend_strength) < pq.2) ∧
      (lower_lows s = true ↔
        ∀ pq ∈ trend_pairs s, pq.2 < pq.1 * (1 - s.min_trend_strength))) ∧
    bull_state.detect_trend = some Trend.bullish ∧
    bear_state.detect_trend = some Trend.bearish ∧
    flat_state.detect_trend = none := by
  refine ⟨?_, ?_, ?_, ?_, ?_⟩
  · intro s
    constructor
    · intro h
      unfold detect_trend
      rw [if_pos h]
    · intro h
      unfold detect_trend
      rw [if_neg h]
      cases hh : higher_highs s <;> cases hl : lower_lows s <;> simp
  · intro s
    constructor
    · simp [higher_highs, List.all_eq_true]
    · simp [lower_lows, List.all_eq_true]
  · norm_num [detect_trend, higher_highs, lower_lows, trend_pairs, recent_prices,
      bull_state, TrendFollowingStrategy.default, TrendFollowingStrategy.init, List.zip]
  · norm_num [detect_trend, higher_highs, lower_lows, trend_pairs, recent_prices,
      bear_state, TrendFollowingStrategy.default, TrendFollowingStrategy.init, List.zip]
  · norm_num [detect_trend, higher_highs, lower_lows, trend_pairs, recent_prices,
      flat_state, TrendFollowingStrategy.default, TrendFollowingStrategy.init, List.zip]

/-- Witness for C2: on the empty default window detect_trend is none, and on
the concrete four-sample bullish window the bullish iff holds. -/
theorem detect_trend_spec_witness :
    TrendFollowingStrategy.default.detect_trend = none ∧
    (bull_state.detect_trend = some Trend.bullish ↔ higher_highs bull_state = true) :=
  ⟨(detect_trend_spec.1 TrendFollowingStrategy.default).1 (by decide),
   ((detect_trend_spec.1 bull_state).2 (by decide)).1⟩

/-- Counterexample to C7 as stated: on an empty ledger avg_loss is 0, yet
profit_factor is the ordinary number 0, not a sentinel representing
unbounded/undefined (the sentinel is produced only when the ledger is
nonempty). -/
theorem get_stats_profit_factor_counterexample :
    (get_stats TrendFollowingStrategy.default).avg_loss = 0 ∧
    (get_stats TrendFollowingStrategy.default).profit_factor = ProfitFactor.val 0 ∧
    ProfitFactor.val 0 ≠ ProfitFactor.unbounded := by
  refine ⟨rfl, rfl, by simp⟩

/-- C7 (amended): win_rate is the positive-pnl count over total trades times
100 and 0 when the ledger is empty; avg_trade is realized pnl over total
trades and 0 when empty; avg_win (avg_loss) is the mean pnl of the
positive-pnl (negative-pnl) trades or 0 when there are none; and, when the
ledger is nonempty, profit_factor is |avg_win / avg_loss| for avg_loss ≠ 0
and the unbounded sentinel for avg_loss = 0, while on an empty ledger every
statistic including profit_factor is the plain number 0. -/
theorem get_stats_spec :
    ∀ s : TrendFollowingStrategy,
      (s.completed_trades = [] →
        (get_stats s).win_rate = 0 ∧
        (get_stats s).avg_trade = 0 ∧
        (get_stats s).avg_win = 0 ∧
        (get_stats s).avg_loss = 0 ∧
        (get_stats s).profit_factor = ProfitFactor.val 0) ∧
      (s.completed_trades ≠ [] →
        ((get_stats s).win_rate =
          ((winning_trades s).length : ℚ) / (s.completed_trades.length : ℚ) * 100 ∧
         (get_stats s).avg_trade =
          (s.completed_trades.map Trade.pnl).sum / (s.completed_trades.length : ℚ) ∧
         (winning_trades s = [] → (get_stats s).avg_win = 0) ∧
         (winning_trades s ≠ [] →
           (get_stats s).avg_win = list_mean ((winning_trades s).map Trade.pnl)) ∧
         (losing_trades s = [] → (get_stats s).avg_loss = 0) ∧
         (losing_trades s ≠ [] →
           (get_stats s).avg_loss = list_mean ((losing_trades s).map Trade.pnl)) ∧
         ((get_stats s).avg_loss ≠ 0 →
           (get_stats s).profit_factor =
             ProfitFactor.val |(get_stats s).avg_win / (get_stats s).avg_loss|) ∧
         ((get_stats s).avg_loss = 0 →
           (get_stats s).profit_factor = ProfitFactor.unbounded))) := by
  intro s
  constructor
  · intro h
    simp [get_stats, get_win_rate, h]
  · intro hne
    have hpos : 0 < s.completed_trades.length := List.length_pos.mpr hne
    have hwr : s.get_win_rate =
        ((winning_trades s).length : ℚ) / (s.completed_trades.length : ℚ) * 100 := by
      unfold get_win_rate winning_trades
      rw [if_neg (by simp [hne])]
    unfold get_stats
    rw [if_pos hpos]
    dsimp only
    refine ⟨hwr, rfl, ?_, ?_, ?_, ?_, ?_, ?_⟩
    · intro hw
      simp [hw]
    · intro hw
      rw [if_neg (by simp [hw])]
    · intro hl
      simp [hl]
    · intro hl
      rw [if_neg (by simp [hl])]
    · intro hnz
      rw [if_pos hnz]
    · intro hz
      rw [if_neg (fun hc => hc hz)]

/-- Witness for C7: on the one-trade ledger the formulas give win_rate 100
and the unbounded profit factor (no losing trades). -/
theorem get_stats_spec_witness :
    (get_stats one_trade_state).win_rate =
      ((winning_trades one_trade_state).length : ℚ) /
        (one_trade_state.completed_trades.length : ℚ) * 100 ∧
    (get_stats one_trade_state).profit_factor = ProfitFactor.unbounded := by
  have h := (get_stats_spec one_trade_state).2 (by simp [one_trade_state])
  have hloss : (get_stats one_trade_state).avg_loss = 0 :=
    h.2.2.2.2.1 (by norm_num [losing_trades, one_trade_state, sample_trade, List.filter])
  exact ⟨h.1, h.2.2.2.2.2.2.2 hloss⟩

/-- Counterexample to C8 as stated: on a coordinator whose last known price
is 0 (treated as missing by the falsy guard in manual_close_position), reset
does not close the open position — it survives reset, and no Trade is
produced. -/
theorem reset_strategy_counterexample :
    bot_price_zero.strategy.current_position = some pos_long_84 ∧
    (bot_price_zero.manual_close_position 0).1 = none ∧
    (bot_price_zero.reset_strategy 0).strategy.current_position = some pos_long_84 := by
  refine ⟨rfl, ?_, ?_⟩
  · norm_num [TradingBot.manual_close_position, bot_price_zero, long84_state,
      TrendFollowingStrategy.default, TrendFollowingStrategy.init]
  · norm_num [TradingBot.reset_strategy, TradingBot.manual_close_position, bot_price_zero,
      long84_state, TrendFollowingStrategy.default, TrendFollowingStrategy.init]

/-- C8 (amended): reset always clears the engine's trade ledger, restores
balance to 1000, zeroes cumulative fees and clears the activity log; when a
position is open at reset time and the last known price exists and is
nonzero, the position is first closed via manual-close at that price,
producing exactly one additional Trade (before the ledger is cleared), so
that no position remains open after reset; with a missing or zero last
price the manual-close fails and the open position survives reset. -/
theorem reset_strategy_spec :
    ∀ (b : TradingBot) (now : ℕ),
      ((b.reset_strategy now).strategy.completed_trades = [] ∧
       (b.reset_strategy now).strategy.balance = 1000 ∧
       (b.reset_strategy now).strategy.total_fees_paid = 0 ∧
       (b.reset_strategy now).trade_log = []) ∧
      (b.strategy.current_position = none →
        (b.reset_strategy now).strategy.current_position = none) ∧
      (∀ (pos : Position) (p : ℚ), b.strategy.current_position = some pos →
        b.last_price = some p → p ≠ 0 →
        ((b.manual_close_position now).1.isSome = true ∧
         (b.manual_close_position now).2.strategy.completed_trades.length =
           b.strategy.completed_trades.length + 1 ∧
         (b.reset_strategy now).strategy.current_position = none)) := by
  intro b now
  refine ⟨⟨rfl, rfl, rfl, rfl⟩, ?_, ?_⟩
  · intro h
    unfold TradingBot.reset_strategy
    rw [h]
    dsimp only
    exact h
  · intro pos p hc hp hpz
    have hmc : (b.manual_close_position now).1.isSome = true ∧
        (b.manual_close_position now).2.strategy =
          (b.strategy.close_position p now CloseReason.manual).2 := by
      unfold TradingBot.manual_close_position
      rw [hc]
      dsimp only
      rw [hp]
      dsimp only
      rw [if_neg hpz]
      rw [close_position_success hc]
      dsimp only
      unfold TradingBot.log_trading_action
      dsimp only
      exact ⟨rfl, rfl⟩
    refine ⟨hmc.1, ?_, ?_⟩
    · rw [hmc.2, close_position_success hc]
      simp
    · unfold TradingBot.reset_strategy
      rw [hc]
      dsimp only
      rw [hmc.2, close_position_success hc]

/-- Witness for C8: on the coordinator with last price 90 and an open
position, manual-close succeeds with one more trade and reset leaves no
position. -/
theorem reset_strategy_spec_witness :
    (bot_price_90.manual_close_position 3).1.isSome = true ∧
    (bot_price_90.manual_close_position 3).2.strategy.completed_trades.length =
      bot_price_90.strategy.completed_trades.length + 1 ∧
    (bot_price_90.reset_strategy 3).strategy.current_position = none :=
  (reset_strategy_spec bot_price_90 3).2.2 pos_long_84 90 rfl rfl (by norm_num)

/-- C10: the exit fee charged by close_position is
position.size × the engine's current leverage × trading_fee while the gross
PnL in the recorded trade comes from the position's stored leverage;
update_strategy_params overwrites the engine leverage in place; open charges
position.size × position.leverage × trading_fee for the position it creates;
hence after a leverage change while a position is open the exit fee differs
from the entry fee of the same position. -/
theorem close_position_fee_uses_current_leverage :
    (∀ (s : TrendFollowingStrategy) (pos : Position) (price : ℚ) (timestamp : ℕ)
       (reason : CloseReason), s.current_position = some pos →
      (s.close_position price timestamp reason).2.total_fees_paid =
        s.total_fees_paid + pos.size * s.leverage * s.trading_fee ∧
      (s.close_position price timestamp reason).1 = some
        { side := pos.side
          entry_price := pos.entry_price
          exit_price := price
          size := pos.size
          leverage := pos.leverage
          entry_time := pos.entry_time
          exit_time := timestamp
          pnl := pos.calculate_pnl price - pos.size * s.leverage * s.trading_fee
          reason := reason }) ∧
    (∀ (b : TradingBot) (L : ℚ),
      (b.update_strategy_params (some L) none none none).strategy =
        { b.strategy with leverage := L }) ∧
    (∀ (s : TrendFollowingStrategy) (side : Side) (price : ℚ) (timestamp : ℕ),
      s.current_position = none →
      ¬ s.balance < s.position_size * s.leverage * s.trading_fee →
      ∃ pos : Position,
        (s.open_position side price timestamp).2.current_position = some pos ∧
        pos.size = s.position_size ∧ pos.leverage = s.leverage ∧
        (s.open_position side price timestamp).2.total_fees_paid =
          s.total_fees_paid + pos.size * pos.leverage * s.trading_fee) ∧
    (∀ (s : TrendFollowingStrategy) (pos : Position) (price : ℚ) (timestamp : ℕ)
       (reason : CloseReason), s.current_position = some pos →
      s.leverage ≠ pos.leverage → pos.size * s.trading_fee ≠ 0 →
      (s.close_position price timestamp reason).2.total_fees_paid - s.total_fees_paid ≠
        pos.size * pos.leverage * s.trading_fee) := by
  refine ⟨?_, ?_, ?_, ?_⟩
  · intro s pos price timestamp reason hc
    rw [close_position_success hc]
    exact ⟨rfl, rfl⟩
  · intro b L
    rfl
  · intro s side price timestamp hc hb
    rw [open_position_success hc hb]
    exact ⟨_, rfl, rfl, rfl, rfl⟩
  · intro s pos price timestamp reason hc hL hnz heq
    apply hL
    rw [close_position_success hc] at heq
    dsimp only at heq
    have hfee : s.trading_fee ≠ 0 := fun h => hnz (by rw [h, mul_zero])
    have hsize : pos.size ≠ 0 := fun h => hnz (by rw [h, zero_mul])
    have hAB : pos.size * s.leverage * s.trading_fee =
        pos.size * pos.leverage * s.trading_fee := by linarith
    have h2 : pos.size * s.leverage = pos.size * pos.leverage :=
      mul_right_cancel₀ hfee hAB
    exact mul_left_cancel₀ hsize h2

/-- Witness for C10: closing pos_long_84 (opened at leverage 5) after the
engine leverage was changed to 7 charges an exit fee different from the
entry fee 100 × 5 × 0.001. -/
theorem close_position_fee_uses_current_leverage_witness :
    (mixed_leverage_state.close_position 90 1 CloseReason.manual).2.total_fees_paid -
      mixed_leverage_state.total_fees_paid ≠
      pos_long_84.size * pos_long_84.leverage * mixed_leverage_state.trading_fee :=
  close_position_fee_uses_current_leverage.2.2.2 mixed_leverage_state pos_long_84 90 1
    CloseReason.manual rfl
    (by norm_num [mixed_leverage_state, long84_state, pos_long_84,
      TrendFollowingStrategy.default, TrendFollowingStrategy.init])
    (by norm_num [mixed_leverage_state, long84_state, pos_long_84,
      TrendFollowingStrategy.default, TrendFollowingStrategy.init])

end PerpTradeSim
